import Mathlib

/-!
Verification of the syfop constraint compiler (syfop/node_base.py, syfop/node.py,
syfop/network.py, syfop/units.py) against its natural-language specification.

The embedding models, over an abstract horizon of `T` time steps:

* quantities with units as magnitude/scale pairs (pint collaborator),
* time-indexed flows as functions `Fin T → ℚ` together with the syntactic
  information linopy needs (is the operand a variable/linear expression or a
  plain constant array), because the source swaps constraint sides based on it,
* the storage variables and the four storage constraints of
  `NodeBase._create_storage_constraints`,
* the per-output-commodity flow balance emission of
  `NodeBase._create_constraint_inout_flow_balance` /
  `_create_constraint_inout_flow_balance_commodity` including conversion-factor
  resolution (`_get_convertion_factors`), commodity tagging (`_get_flows`) and
  unit stripping (`units.strip_unit`),
* the proportion validation of `NodeBase._check_proportions_valid_or_missing`
  and the emitted proportion constraints,
* the size-limit constraint of `Node.create_constraints` (syfop/node.py),
* the `Storage.__init__` parameter assertions,
* the capacity-factor validation and variable creation of
  `NodeScalableInputProfile`,
* `Network.optimize` status handling and `Network._add_leaf_flow_variables`.

A constraint emitted by `model.add_constraints` is represented by the data the
source hands to linopy (left side, relation, right side); its meaning is the
satisfaction predicate "the relation holds at every time step".
-/

/-- A pint quantity: a magnitude together with the scale of its unit relative
to a fixed base unit of its dimension.  `q.to(u)` returns `mag * scale / u`. -/
structure PQuantity where
  mag : ℚ
  scale : ℚ
deriving DecidableEq

/-- The dimensionless quantity 1.0 (the default `convert_factor`). -/
def pqOne : PQuantity := PQuantity.mk 1 1

/-- `units.interval_length`: `np.diff` of the time stamps (in hours), asserting
that all interval lengths are equal, and returning the first one.  A grid with
fewer than two stamps makes `interval_lengths[0]` fail. -/
def intervalLengthHours (timeCoords : List ℚ) : Except String ℚ :=
  match timeCoords.zipWith (fun a b => b - a) timeCoords.tail with
  | [] => Except.error "interval length undefined for less than two time stamps"
  | d :: rest =>
    if rest.all (fun x => decide (x = d)) then Except.ok d
    else Except.error "timestes are not equidistant"

/-- A time-indexed operand as it reaches linopy: `isVar` is true when the
operand is a `linopy.Variable` or `linopy.LinearExpression` (the source
branches on this), and `series` is its per-time-step value under the solution
assignment under consideration. -/
structure FlowExpr (T : ℕ) where
  isVar : Bool
  series : Fin T → ℚ

/-- A flow as stored in `input_flows` / `output_flows`: additionally carries
the pint unit scale when the flow is a unit-bearing constant time series
(`none` for plain arrays and for linopy variables, which carry no unit). -/
structure TaggedFlow (T : ℕ) where
  isVar : Bool
  unit : Option ℚ
  series : Fin T → ℚ

/-- `units.strip_unit`: a unit-bearing time series is rescaled to the target
(default) unit of its commodity and the unit dropped; anything else — in
particular linopy variables — is returned unchanged. -/
def stripUnit {T : ℕ} (f : TaggedFlow T) (target : ℚ) : FlowExpr T :=
  match f.unit with
  | some s => FlowExpr.mk f.isVar (fun t => f.series t * s / target)
  | none => FlowExpr.mk f.isVar f.series

/-- Python `sum` over a list of flows: a linopy object as soon as one summand
is one, a plain constant otherwise. -/
def sumFlows {T : ℕ} (fs : List (FlowExpr T)) : FlowExpr T :=
  FlowExpr.mk (fs.any (fun f => f.isVar)) (fun t => (fs.map (fun f => f.series t)).sum)

/-- Multiplication of a flow sum by a scalar (the conversion factor). -/
def scaleFlow {T : ℕ} (c : ℚ) (f : FlowExpr T) : FlowExpr T :=
  FlowExpr.mk f.isVar (fun t => c * f.series t)

def addFlow {T : ℕ} (f g : FlowExpr T) : FlowExpr T :=
  FlowExpr.mk (f.isVar || g.isVar) (fun t => f.series t + g.series t)

def subFlow {T : ℕ} (f g : FlowExpr T) : FlowExpr T :=
  FlowExpr.mk (f.isVar || g.isVar) (fun t => f.series t - g.series t)

/-- The constant 0 that the source moves all constants to. -/
def zeroFlow (T : ℕ) : FlowExpr T :=
  FlowExpr.mk false (fun _ => 0)

/-- The pointwise sum of the (already stripped) series of a list of flows; the
value of `sum(flows)` at one time step. -/
def seriesSum {T : ℕ} (fs : List (FlowExpr T)) (t : Fin T) : ℚ :=
  (fs.map (fun f => f.series t)).sum

/-- Storage parameters (from `Storage.__init__`) together with the solver
variables created by `_create_storage_variables`, with the time-indexed
variables given by their values under the solution assignment. -/
structure StorageData (T : ℕ) where
  maxChargingSpeed : ℚ
  storageLoss : ℚ
  chargingLoss : ℚ
  size : ℚ
  level : Fin T → ℚ
  charge : Fin T → ℚ
  discharge : Fin T → ℚ

/-- A constraint of the form `lhs ≤ 0` (`isLe = true`) or `lhs == 0`
(`isLe = false`), emitted once per time step. -/
structure SConstraint (T : ℕ) where
  lhs : Fin T → ℚ
  isLe : Bool

/-- Satisfaction of an emitted constraint: the relation holds at every time
step. -/
def SConstraint.sat {T : ℕ} (c : SConstraint T) : Prop :=
  ∀ t, if c.isLe then c.lhs t ≤ 0 else c.lhs t = 0

instance {T : ℕ} (c : SConstraint T) : Decidable c.sat :=
  inferInstanceAs (Decidable (∀ t, if c.isLe then c.lhs t ≤ 0 else c.lhs t = 0))

/-- `xarray.DataArray.roll(time=1)`: element `t` of the rolled series is
element `(t + T - 1) % T` of the original series. -/
def rollSeries {T : ℕ} (f : Fin T → ℚ) : Fin T → ℚ :=
  fun t => f (Fin.mk ((t.val + T - 1) % T) (Nat.mod_lt _ (by have := t.isLt; omega)))

/-- The circular predecessor of a time step, as the specification words it:
`t - 1`, wrapping to the last time step for `t = 0`. -/
def predCirc {T : ℕ} (t : Fin T) : Fin T :=
  if _ : t.val = 0 then Fin.mk (T - 1) (by have := t.isLt; omega)
  else Fin.mk (t.val - 1) (by have := t.isLt; omega)

/-- `charge - size * max_charging_speed <= 0` (`_create_storage_constraints`). -/
def maxChargingConstraint {T : ℕ} (s : StorageData T) : SConstraint T :=
  SConstraint.mk (fun t => s.charge t - s.size * s.maxChargingSpeed) true

/-- `discharge - size * max_charging_speed <= 0`. -/
def maxDischargingConstraint {T : ℕ} (s : StorageData T) : SConstraint T :=
  SConstraint.mk (fun t => s.discharge t - s.size * s.maxChargingSpeed) true

/-- `level - size <= 0`. -/
def storageMaxLevelConstraint {T : ℕ} (s : StorageData T) : SConstraint T :=
  SConstraint.mk (fun t => s.level t - s.size) true

/-- `level - (1 - storage_loss) * level.roll(time=1)
- (1 - charging_loss) * charge + discharge == 0`. -/
def storageLevelBalanceConstraint {T : ℕ} (s : StorageData T) : SConstraint T :=
  SConstraint.mk
    (fun t =>
      s.level t - (1 - s.storageLoss) * rollSeries s.level t
        - (1 - s.chargingLoss) * s.charge t + s.discharge t)
    false

/-- An equality constraint handed to linopy by
`_create_constraint_inout_flow_balance_commodity`, keeping the two sides as
the source built them (after side swapping and constant isolation). -/
structure BalanceConstraint (T : ℕ) where
  lhs : FlowExpr T
  rhs : FlowExpr T

/-- Satisfaction of the balance constraint: equality at every time step. -/
def BalanceConstraint.sat {T : ℕ} (c : BalanceConstraint T) : Prop :=
  ∀ t, c.lhs.series t = c.rhs.series t

instance {T : ℕ} (c : BalanceConstraint T) : Decidable c.sat :=
  inferInstanceAs (Decidable (∀ t, c.lhs.series t = c.rhs.series t))

/-- The `storage.charge` linopy variable as an operand of the balance
constraint. -/
def chargeFlow {T : ℕ} (s : StorageData T) : FlowExpr T :=
  FlowExpr.mk true s.charge

/-- The `storage.discharge` linopy variable as an operand of the balance
constraint. -/
def dischargeFlow {T : ℕ} (s : StorageData T) : FlowExpr T :=
  FlowExpr.mk true s.discharge

/-- `NodeBase._create_constraint_inout_flow_balance_commodity`:

* `lhs := sum(output_flows_mag)`, `rhs := convert_factor_mag * sum(input_flows_mag)`;
* if `lhs` is neither a variable nor a linear expression, a node with a
  storage is rejected with a `RuntimeError`, otherwise the sides are swapped;
* if (after that) `rhs` is a variable or linear expression it is subtracted
  onto the left side and the right side becomes `0`;
* a storage contributes `+ charge - discharge` on the left side;
* the resulting `lhs == rhs` is added to the model. -/
def emitBalanceCommodity {T : ℕ} (st : Option (StorageData T))
    (inM outM : List (FlowExpr T)) (cfm : ℚ) : Except String (BalanceConstraint T) :=
  if (sumFlows outM).isVar then
    match st with
    | some s =>
      if (scaleFlow cfm (sumFlows inM)).isVar then
        Except.ok (BalanceConstraint.mk
          (subFlow
            (addFlow (subFlow (sumFlows outM) (scaleFlow cfm (sumFlows inM))) (chargeFlow s))
            (dischargeFlow s))
          (zeroFlow T))
      else
        Except.ok (BalanceConstraint.mk
          (subFlow (addFlow (sumFlows outM) (chargeFlow s)) (dischargeFlow s))
          (scaleFlow cfm (sumFlows inM)))
    | none =>
      if (scaleFlow cfm (sumFlows inM)).isVar then
        Except.ok (BalanceConstraint.mk
          (subFlow (sumFlows outM) (scaleFlow cfm (sumFlows inM))) (zeroFlow T))
      else
        Except.ok (BalanceConstraint.mk (sumFlows outM) (scaleFlow cfm (sumFlows inM)))
  else
    match st with
    | some _ => Except.error "NodeFixOutput with Storage not supported"
    | none =>
      if (sumFlows outM).isVar then
        Except.ok (BalanceConstraint.mk
          (subFlow (scaleFlow cfm (sumFlows inM)) (sumFlows outM)) (zeroFlow T))
      else
        Except.ok (BalanceConstraint.mk (scaleFlow cfm (sumFlows inM)) (sumFlows outM))

/-- A node as seen by `_create_constraint_inout_flow_balance` after the
Network has resolved edges and commodities: flows keyed by neighbour name,
per-edge commodity lists, conversion factors and the optional storage.
`convertFactor` is `none` for Python `None`; `convertFactors` maps an output
commodity to its input commodity and factor. -/
structure BNode (T : ℕ) where
  name : String
  inputs : List String
  outputs : List String
  inputFlows : List (String × TaggedFlow T)
  outputFlows : List (String × TaggedFlow T)
  inputCommodities : List String
  outputCommodities : List String
  convertFactor : Option PQuantity
  convertFactors : Option (List (String × String × Option PQuantity))
  storage : Option (StorageData T)

/-- Python dict lookup (`KeyError` on a missing key). -/
def lookupE {α : Type} (m : List (String × α)) (k : String) : Except String α :=
  match m with
  | [] => Except.error "KeyError"
  | (k2, v) :: rest => if k2 = k then Except.ok v else lookupE rest k

/-- `NodeBase._get_convertion_factors`: without a `convert_factors` dict a
single pair is built from the (then necessarily unique) input and output
commodity and `convert_factor`; with a `convert_factors` dict the guard
`convert_factor != 1.0 or convert_factor is not None` rejects the node. -/
def getConvertionFactors {T : ℕ} (n : BNode T) :
    Except String (List (String × String × Option PQuantity)) :=
  match n.convertFactors with
  | none =>
    if n.inputCommodities.dedup.length > 1 ∨ n.outputCommodities.dedup.length > 1 then
      Except.error "convert_factors is required for multiple input or output commodities"
    else
      match n.inputCommodities.head?, n.outputCommodities.head? with
      | some ic, some oc => Except.ok [(oc, ic, n.convertFactor)]
      | _, _ => Except.error "IndexError"
  | some m =>
    if n.convertFactor ≠ some pqOne ∨ n.convertFactor ≠ none then
      Except.error "convert_factors is only allowed if convert_factor is 1.0 or None"
    else Except.ok m

/-- `NodeBase._get_flows`: with no attached nodes the commodity list must be
exactly the singleton of the requested commodity and all flows are returned;
otherwise the attached nodes are zipped strictly with the commodity list and
the flows of the nodes tagged with the requested commodity are returned. -/
def getFlowsZip {T : ℕ} (flows : List (String × TaggedFlow T)) (c : String) :
    List (String × String) → Except String (List (TaggedFlow T))
  | [] => Except.ok []
  | (nm, c2) :: rest =>
    if c2 = c then
      match lookupE flows nm with
      | Except.error e => Except.error e
      | Except.ok f =>
        match getFlowsZip flows c rest with
        | Except.error e => Except.error e
        | Except.ok fs => Except.ok (f :: fs)
    else getFlowsZip flows c rest

def getFlows {T : ℕ} (flows : List (String × TaggedFlow T)) (attached : List String)
    (commodities : List String) (c : String) : Except String (List (TaggedFlow T)) :=
  if attached.isEmpty then
    if commodities = [c] then Except.ok (flows.map (fun p => p.2))
    else Except.error "commodities of a node without attached nodes must equal the requested one"
  else
    if attached.length ≠ commodities.length then Except.error "zip strict length mismatch"
    else getFlowsZip flows c (attached.zip commodities)

/-- The data `_create_constraint_inout_flow_balance` prepares for one output
commodity before calling the per-commodity emission: the stripped input flow
magnitudes, the stripped output flow magnitudes, and the conversion factor
magnitude rescaled to (default unit of the output commodity) / (default unit
of the input commodity). -/
def resolvedData {T : ℕ} (n : BNode T) (du : String → ℚ) (oc : String) :
    Except String (List (FlowExpr T) × List (FlowExpr T) × ℚ) :=
  match getConvertionFactors n with
  | Except.error e => Except.error e
  | Except.ok cfs =>
    match lookupE cfs oc with
    | Except.error e => Except.error e
    | Except.ok (ic, q0) =>
      match q0 with
      | none => Except.error "TypeError: convert_factor is None"
      | some q =>
        let cfm := q.mag * q.scale / (du oc / du ic)
        match getFlows n.inputFlows n.inputs n.inputCommodities ic with
        | Except.error e => Except.error e
        | Except.ok inFs =>
          match getFlows n.outputFlows n.outputs n.outputCommodities oc with
          | Except.error e => Except.error e
          | Except.ok outFs =>
            Except.ok
              (inFs.map (fun f => stripUnit f (du ic)),
               outFs.map (fun f => stripUnit f (du oc)), cfm)

/-- The Python for-loop collecting one result per element, stopping at the
first raised error. -/
def mapME {α β : Type} (f : α → Except String β) : List α → Except String (List β)
  | [] => Except.ok []
  | x :: xs =>
    match f x with
    | Except.error e => Except.error e
    | Except.ok y =>
      match mapME f xs with
      | Except.error e => Except.error e
      | Except.ok ys => Except.ok (y :: ys)

/-- One iteration of the loop over the distinct output commodities in
`_create_constraint_inout_flow_balance`: resolve the flows and factor for the
commodity and emit its balance constraint. -/
def balanceStep {T : ℕ} (n : BNode T) (du : String → ℚ) (oc : String) :
    Except String (String × BalanceConstraint T) :=
  match resolvedData n du oc with
  | Except.error e => Except.error e
  | Except.ok (inM, outM, cfm) =>
    match emitBalanceCommodity n.storage inM outM cfm with
    | Except.error e => Except.error e
    | Except.ok c => Except.ok (oc, c)

/-- `NodeBase._create_constraint_inout_flow_balance`: assert non-empty input
and output flows, resolve the conversion factors, and emit one balance
constraint per distinct output commodity. -/
def createBalanceConstraints {T : ℕ} (n : BNode T) (du : String → ℚ) :
    Except String (List (String × BalanceConstraint T)) :=
  if n.inputFlows.isEmpty then Except.error "node has no input flows"
  else if n.outputFlows.isEmpty then Except.error "node has no output flows"
  else
    match getConvertionFactors n with
    | Except.error e => Except.error e
    | Except.ok _ => mapME (balanceStep n du) n.outputCommodities.dedup

/-- The storage term the source adds to the balance:
`+ charge - discharge`. -/
def codeStorageTerm {T : ℕ} (st : Option (StorageData T)) (t : Fin T) : ℚ :=
  match st with
  | some s => s.charge t - s.discharge t
  | none => 0

/-- The storage term as the claim states it:
`+ charge / dt - discharge / dt` for interval length `dt`. -/
def claimStorageTerm {T : ℕ} (st : Option (StorageData T)) (dt : ℚ) (t : Fin T) : ℚ :=
  match st with
  | some s => s.charge t / dt - s.discharge t / dt
  | none => 0

/-- The list of emitted balance constraints of a node (empty on error); used
to name concrete emission results in closed statements. -/
def balanceListOf {T : ℕ} (n : BNode T) (du : String → ℚ) :
    List (String × BalanceConstraint T) :=
  match createBalanceConstraints n du with
  | Except.ok l => l
  | Except.error _ => []

/-- The first emitted balance constraint of a list (a trivial constraint if
there is none). -/
def headConstraintOf {T : ℕ} (l : List (String × BalanceConstraint T)) :
    BalanceConstraint T :=
  match l with
  | (_, c) :: _ => c
  | [] => BalanceConstraint.mk (zeroFlow T) (zeroFlow T)

/-- The resolved (input magnitudes, output magnitudes, factor magnitude)
triple of a node for one output commodity (a junk triple on error). -/
def resolvedTripOf {T : ℕ} (n : BNode T) (du : String → ℚ) (oc : String) :
    List (FlowExpr T) × List (FlowExpr T) × ℚ :=
  match resolvedData n du oc with
  | Except.ok p => p
  | Except.error _ => ([], [], 0)

/-- Claim C1 as stated: the emitted per-commodity balance equation carries the
storage term divided by the time-grid interval length. -/
def c1AsStated : Prop :=
  ∀ (T : ℕ) (n : BNode T) (du : String → ℚ)
    (lst : List (String × BalanceConstraint T)) (oc : String)
    (cstr : BalanceConstraint T) (inM outM : List (FlowExpr T)) (cfm : ℚ)
    (grid : List ℚ) (dt : ℚ),
    createBalanceConstraints n du = Except.ok lst →
    (oc, cstr) ∈ lst →
    resolvedData n du oc = Except.ok (inM, outM, cfm) →
    intervalLengthHours grid = Except.ok dt →
    (cstr.sat ↔
      ∀ t, seriesSum outM t + claimStorageTerm n.storage dt t = cfm * seriesSum inM t)

/-- A storage with charge 2 and discharge 0 in every time step. -/
def cexC1storage : StorageData 1 :=
  StorageData.mk 1 0 0 1 (fun _ => 0) (fun _ => 2) (fun _ => 0)

/-- A node with one electricity input flow of constant value 2 (a linopy
variable), one output flow of constant value 0, default conversion factor and
the storage above; the time grid has 2-hour intervals, so the claimed storage
term is charge / 2 = 1 while the emitted constraint uses charge = 2. -/
def cexC1node : BNode 1 :=
  BNode.mk "hydrogen" ["wind"] ["synthesis"]
    [("wind", TaggedFlow.mk true none (fun _ => 2))]
    [("synthesis", TaggedFlow.mk true none (fun _ => 0))]
    ["electricity"] ["electricity"]
    (some pqOne) none (some cexC1storage)

def cexC1du : String → ℚ := fun _ => 1

def cexC1lst : List (String × BalanceConstraint 1) := balanceListOf cexC1node cexC1du

def cexC1cstr : BalanceConstraint 1 := headConstraintOf cexC1lst

def cexC1trip : List (FlowExpr 1) × List (FlowExpr 1) × ℚ :=
  resolvedTripOf cexC1node cexC1du "electricity"

/-- A storage-free node with one input flow (constant 5, variable) and one
output flow (constant 5, variable), used to witness the amended claim C1. -/
def witC1node : BNode 1 :=
  BNode.mk "electricity" ["wind"] ["demand"]
    [("wind", TaggedFlow.mk true none (fun _ => 5))]
    [("demand", TaggedFlow.mk true none (fun _ => 5))]
    ["electricity"] ["electricity"]
    (some pqOne) none none

def witC1lst : List (String × BalanceConstraint 1) := balanceListOf witC1node cexC1du

def witC1cstr : BalanceConstraint 1 := headConstraintOf witC1lst

def witC1trip : List (FlowExpr 1) × List (FlowExpr 1) × ℚ :=
  resolvedTripOf witC1node cexC1du "electricity"

/-- Claim C2 as stated: the emitted charge/discharge speed bounds scale with
the time-grid interval length. -/
def c2AsStated : Prop :=
  ∀ (T : ℕ) (s : StorageData T) (grid : List ℚ) (dt : ℚ),
    intervalLengthHours grid = Except.ok dt →
    (((maxChargingConstraint s).sat ∧ (maxDischargingConstraint s).sat ∧
        (storageMaxLevelConstraint s).sat) ↔
      ∀ t, s.charge t ≤ s.size * s.maxChargingSpeed * dt ∧
        s.discharge t ≤ s.size * s.maxChargingSpeed * dt ∧
        s.level t ≤ s.size)

/-- A storage of size 1 with max charging speed 1/2 charging 3/4 in the single
time step of a 2-hour grid: allowed by the claimed bound S·r·dt = 1, rejected
by the emitted bound S·r = 1/2. -/
def cexC2storage : StorageData 1 :=
  StorageData.mk (1 / 2) 0 0 1 (fun _ => 0) (fun _ => 3 / 4) (fun _ => 0)

/-- Python set equality of the proportion keys and the node names
(`proportions.keys() == {node.name for node in nodes}`). -/
def keysMatch (props : List (String × ℚ)) (names : List String) : Bool :=
  (props.map (fun p => p.1)).all (fun k => names.contains k) &&
    names.all (fun nm => (props.map (fun p => p.1)).contains nm)

/-- `NodeBase._check_proportions_valid_or_missing`: given proportions must
have keys matching the node names and values summing to exactly 1.0; missing
proportions are only allowed when all commodities coincide. -/
def checkProportionsValidOrMissing (names : List String)
    (props : Option (List (String × ℚ))) (commodities : List String) :
    Except String Unit :=
  match props with
  | some ps =>
    if keysMatch ps names = false then
      Except.error "proportions needs to be a dict with keys matching names"
    else if (ps.map (fun p => p.2)).sum ≠ 1 then
      Except.error "proportions needs to sum up to 1."
    else Except.ok ()
  | none =>
    if commodities.dedup.length > 1 then
      Except.error "different commodities, but no proportions provided"
    else Except.ok ()

/-- Python dict access `flows[name]` (a zero series stands in for the
`KeyError` case, which the keys check rules out). -/
def lookupSeries {T : ℕ} (flows : List (String × (Fin T → ℚ))) (k : String) :
    Fin T → ℚ :=
  match List.lookup k flows with
  | some f => f
  | none => fun _ => 0

/-- `NodeBase._create_proportion_constraints`: one constraint per proportion
entry, `proportion * total_input + (proportion - 1) * flows[name] == 0` where
`total_input` sums all other flows. -/
def createProportionConstraints {T : ℕ} (props : List (String × ℚ))
    (flows : List (String × (Fin T → ℚ))) : List (String × SConstraint T) :=
  props.map (fun p =>
    (p.1,
      SConstraint.mk
        (fun t =>
          p.2 * ((flows.filter (fun q => q.1 ≠ p.1)).map (fun q => q.2 t)).sum
            + (p.2 - 1) * lookupSeries flows p.1 t)
        false))

/-- The input flows of the hot-chocolate style proportion example: two sibling
flows with values in the declared 1 : 3 ratio. -/
def c3Flows : List (String × (Fin 1 → ℚ)) :=
  [("co2", fun _ => 1 / 2), ("hydrogen", fun _ => 3 / 2)]

/-- `Node.create_constraints` (syfop/node.py): the size-limit constraint sums
all output flows, subtracts the size and, with a storage, adds the charge;
the result is required to be at most 0. -/
def nodeSizeLimitConstraint {T : ℕ} (outputFlowVals : List (Fin T → ℚ)) (size : ℚ)
    (storageCharge : Option (Fin T → ℚ)) : SConstraint T :=
  SConstraint.mk
    (fun t =>
      ((outputFlowVals.map (fun f => f t)).sum - size)
        + (match storageCharge with | some ch => ch t | none => 0))
    true

/-- The sum of the output flows tagged with one commodity (the sum the claim
says the size-limit constraint uses). -/
def taggedOutputSum {T : ℕ} (flows : List (String × (Fin T → ℚ))) (c : String)
    (t : Fin T) : ℚ :=
  ((flows.filter (fun p => p.1 = c)).map (fun p => p.2 t)).sum

/-- Output flows of a CHP-style node: 3 MW electricity and 6 MW heat, with
electricity the size-defining commodity. -/
def c6Flows : List (String × (Fin 1 → ℚ)) :=
  [("electricity", fun _ => 3), ("heat", fun _ => 6)]

/-- `Storage.__init__` (syfop/node.py): the constructor asserts
`storage_loss < 1`, `charging_loss < 1` and `max_charging_speed <= 1` and
accepts the parameters exactly when all three hold. -/
def storageInitAccepted (maxChargingSpeed storageLoss chargingLoss : ℚ) : Bool :=
  decide (storageLoss < 1) && decide (chargingLoss < 1) && decide (maxChargingSpeed ≤ 1)

/-- Claim C7 as stated: construction succeeds exactly when the parameters lie
in their declared ranges, max charging speed in (0,1] and both losses in
[0,1). -/
def c7AsStated : Prop :=
  ∀ r l k : ℚ,
    storageInitAccepted r l k = true ↔
      (0 < r ∧ r ≤ 1 ∧ 0 ≤ l ∧ l < 1 ∧ 0 ≤ k ∧ k < 1)

/-- `((0 <= input_flow) & (input_flow <= 1)).all()`. -/
def capacityFactorsOk (profile : List ℚ) : Bool :=
  profile.all (fun x => decide (0 ≤ x) && decide (x ≤ 1))

/-- `NodeScalableInputProfile.__init__`: reject any profile value outside
[0, 1], otherwise construct the node with the profile as its input flow. -/
def mkNodeScalableInputProfile (profile : List ℚ) : Except String (List ℚ) :=
  if capacityFactorsOk profile then Except.ok profile
  else Except.error "invalid values in input_flow: must be capacity factors, i.e. between 0 and 1"

/-- The input-flow entry of a scalable input node: either the plain profile
(before variable creation) or the profile multiplied by the size variable. -/
inductive ScalableInputFlow
  | plainProfile (profile : List ℚ)
  | sizeTimesProfile (profile : List ℚ)
deriving DecidableEq

/-- `NodeScalableInputProfile.create_variables`: the inherited variable
creation adds a size variable when `costs` is truthy, then the input flow is
replaced by `self.size * self.input_flows[""]`; without a size variable the
attribute access fails. -/
def scalableInputCreateVariables (profile : List ℚ) (costs : ℚ) :
    Except String ScalableInputFlow :=
  if costs ≠ 0 then Except.ok (ScalableInputFlow.sizeTimesProfile profile)
  else Except.error "AttributeError: node has no size attribute"

/-- `linopy.constants.SolverStatus`. -/
inductive SolverStatus
  | ok
  | warning
  | error
  | aborted
deriving DecidableEq

def solverStatusName : SolverStatus → String
  | SolverStatus.ok => "ok"
  | SolverStatus.warning => "warning"
  | SolverStatus.error => "error"
  | SolverStatus.aborted => "aborted"

/-- The typed failure raised by `Network.optimize`. -/
structure SolverError where
  message : String
deriving DecidableEq

/-- The message of the raised `SolverError`. -/
def solverErrorMessage (status : SolverStatus) (terminationCondition : String) : String :=
  "unable to solve optimization, solver status=" ++ solverStatusName status
    ++ ", termination condition=" ++ terminationCondition

/-- `Network.optimize` after `model.solve` returned: raise a `SolverError`
carrying status and termination condition unless the solver status is `ok`. -/
def networkOptimize (status : SolverStatus) (terminationCondition : String) :
    Except SolverError Unit :=
  if status = SolverStatus.ok then Except.ok ()
  else Except.error (SolverError.mk (solverErrorMessage status terminationCondition))

/-- The three node families relevant to flow-dictionary creation: nodes with a
given input time series (`NodeInputBase`), nodes with a given output time
series (`NodeOutputBase`), and generic nodes. -/
inductive PNodeKind
  | inputProfile
  | outputProfile
  | generic
deriving DecidableEq

/-- A node of the network build pipeline, reduced to what determines its flow
dictionaries: its name, its family and the names of its declared inputs. -/
structure PNode where
  name : String
  kind : PNodeKind
  inputs : List String
deriving DecidableEq

/-- The key sets of a node's `input_flows` / `output_flows` dictionaries;
`outFlows = none` models the `None` placeholder set in `NodeBase.__init__`. -/
structure FlowKeys where
  inFlows : List String
  outFlows : Option (List String)
deriving DecidableEq

/-- Flow dictionaries right after node construction: an input node owns
`{"": input_flow}`, an output node owns `{name: output_flow}`, everything
else is filled later. -/
def initFlowKeys (n : PNode) : FlowKeys :=
  match n.kind with
  | PNodeKind.inputProfile => FlowKeys.mk [""] none
  | PNodeKind.outputProfile => FlowKeys.mk [] (some [n.name])
  | PNodeKind.generic => FlowKeys.mk [] none

/-- `create_variables` pass: `_create_input_flows_variables` creates one input
flow variable per declared input (a no-op for input-profile nodes). -/
def createVariablesKeys (n : PNode) (s : FlowKeys) : FlowKeys :=
  match n.kind with
  | PNodeKind.inputProfile => s
  | _ => FlowKeys.mk n.inputs s.outFlows

/-- The output nodes of `n`: every node that declared `n` as an input. -/
def outputsOf (nodes : List PNode) (n : PNode) : List String :=
  (nodes.filter (fun m => m.inputs.contains n.name)).map (fun m => m.name)

/-- `Network._set_output_connections`: a node whose `output_flows` is still
`None` is bound to one flow per output node. -/
def setOutputConnectionsKeys (nodes : List PNode) (n : PNode) (s : FlowKeys) : FlowKeys :=
  match s.outFlows with
  | none => FlowKeys.mk s.inFlows (some (outputsOf nodes n))
  | some _ => s

/-- `Network._add_leaf_flow_variables`: an empty input-flow or output-flow
dictionary receives a synthesized leaf flow variable under the key `""`. -/
def addLeafFlowKeys (s : FlowKeys) : FlowKeys :=
  FlowKeys.mk (if s.inFlows.isEmpty then [""] else s.inFlows)
    (match s.outFlows with
     | some l => some (if l.isEmpty then [""] else l)
     | none => none)

/-- The flow dictionaries of a node after the `Network` build steps that run
before constraint creation, in source order: variable creation, output-edge
resolution, leaf-flow synthesis. -/
def pipelineFlowKeys (nodes : List PNode) (n : PNode) : FlowKeys :=
  addLeafFlowKeys (setOutputConnectionsKeys nodes n (createVariablesKeys n (initFlowKeys n)))

/-- A network consisting of one isolated generic node (no inputs, no
outputs). -/
def c10Nodes : List PNode := [PNode.mk "gas" PNodeKind.generic []]

/-- A node supplying a `convert_factors` mapping together with the default
`convert_factor` of 1.0. -/
def cexC4node : BNode 1 :=
  BNode.mk "chp" [] []
    [("", TaggedFlow.mk true none (fun _ => 0))]
    [("", TaggedFlow.mk true none (fun _ => 0))]
    ["gas"] ["electricity"]
    (some pqOne) (some [("electricity", "gas", some (PQuantity.mk 2 1))]) none

/-- A valid capacity-factor profile used to witness claim C8. -/
def c8Profile : List ℚ := [0, 1 / 2, 1]

@[simp] theorem scaleFlow_isVar {T : ℕ} (c : ℚ) (f : FlowExpr T) :
    (scaleFlow c f).isVar = f.isVar := rfl

@[simp] theorem scaleFlow_series {T : ℕ} (c : ℚ) (f : FlowExpr T) (t : Fin T) :
    (scaleFlow c f).series t = c * f.series t := rfl

@[simp] theorem addFlow_series {T : ℕ} (f g : FlowExpr T) (t : Fin T) :
    (addFlow f g).series t = f.series t + g.series t := rfl

@[simp] theorem subFlow_series {T : ℕ} (f g : FlowExpr T) (t : Fin T) :
    (subFlow f g).series t = f.series t - g.series t := rfl

@[simp] theorem zeroFlow_series {T : ℕ} (t : Fin T) : (zeroFlow T).series t = 0 := rfl

@[simp] theorem sumFlows_series {T : ℕ} (fs : List (FlowExpr T)) (t : Fin T) :
    (sumFlows fs).series t = seriesSum fs t := rfl

@[simp] theorem chargeFlow_series {T : ℕ} (s : StorageData T) (t : Fin T) :
    (chargeFlow s).series t = s.charge t := rfl

@[simp] theorem dischargeFlow_series {T : ℕ} (s : StorageData T) (t : Fin T) :
    (dischargeFlow s).series t = s.discharge t := rfl

/-- Whatever branch of the side-swapping workaround is taken, the emitted
balance constraint is satisfied exactly when the plain balance equation with
the storage term `+ charge - discharge` holds at every time step. -/
theorem emitBalanceCommodity_sat_iff {T : ℕ} (st : Option (StorageData T))
    (inM outM : List (FlowExpr T)) (cfm : ℚ) (c : BalanceConstraint T)
    (h : emitBalanceCommodity st inM outM cfm = Except.ok c) :
    (c.sat ↔ ∀ t, seriesSum outM t + codeStorageTerm st t = cfm * seriesSum inM t) := by
  unfold emitBalanceCommodity at h
  split at h <;> split at h <;> try split at h
  all_goals
    first
    | contradiction
    | (injection h with h
       subst h
       simp only [BalanceConstraint.sat, codeStorageTerm, subFlow_series, addFlow_series,
         sumFlows_series, scaleFlow_series, chargeFlow_series, dischargeFlow_series,
         zeroFlow_series]
       constructor <;> intro hs t <;> have := hs t <;> linarith)

/-- Every element of a successful `mapME` run comes from applying the body to
some element of the input list. -/
theorem mapME_ok_mem {α β : Type} (f : α → Except String β) :
    ∀ (l : List α) (ys : List β), mapME f l = Except.ok ys →
      ∀ y ∈ ys, ∃ x ∈ l, f x = Except.ok y := by
  intro l
  induction l with
  | nil =>
    intro ys h y hy
    unfold mapME at h
    injection h with h
    subst h
    simp at hy
  | cons x xs ih =>
    intro ys h y hy
    unfold mapME at h
    cases hfx : f x with
    | error e => rw [hfx] at h; exact absurd h (by simp)
    | ok y0 =>
      rw [hfx] at h
      cases hrest : mapME f xs with
      | error e => rw [hrest] at h; exact absurd h (by simp)
      | ok ys0 =>
        rw [hrest] at h
        injection h with h
        subst h
        rcases List.mem_cons.mp hy with h1 | h2
        · exact ⟨x, List.mem_cons_self x xs, by rw [h1]; exact hfx⟩
        · obtain ⟨x2, hx2, hfx2⟩ := ih ys0 hrest y h2
          exact ⟨x2, List.mem_cons_of_mem x hx2, hfx2⟩

/-- If the body returns its argument as the first component, a successful
`mapME` run returns one result per input element, first components in input
order. -/
theorem mapME_ok_map_fst {α β : Type} (f : α → Except String (α × β))
    (hf : ∀ x y, f x = Except.ok y → y.1 = x) :
    ∀ (l : List α) (ys : List (α × β)), mapME f l = Except.ok ys →
      ys.map (fun p => p.1) = l := by
  intro l
  induction l with
  | nil =>
    intro ys h
    unfold mapME at h
    injection h with h
    subst h
    rfl
  | cons x xs ih =>
    intro ys h
    unfold mapME at h
    cases hfx : f x with
    | error e => rw [hfx] at h; exact absurd h (by simp)
    | ok y0 =>
      rw [hfx] at h
      cases hrest : mapME f xs with
      | error e => rw [hrest] at h; exact absurd h (by simp)
      | ok ys0 =>
        rw [hrest] at h
        injection h with h
        subst h
        simp only [List.map_cons]
        rw [hf x y0 hfx, ih ys0 hrest]

/-- `roll(time=1)` looks up exactly the circular predecessor `t - 1`
(wrapping to the last time step at `t = 0`). -/
theorem rollSeries_eq_predCirc {T : ℕ} (f : Fin T → ℚ) (t : Fin T) :
    rollSeries f t = f (predCirc t) := by
  have hT := t.isLt
  unfold rollSeries predCirc
  by_cases h0 : t.val = 0
  · rw [dif_pos h0]
    congr 1
    apply Fin.ext
    show (t.val + T - 1) % T = T - 1
    rw [h0]
    simp only [Nat.zero_add]
    exact Nat.mod_eq_of_lt (by omega)
  · rw [dif_neg h0]
    congr 1
    apply Fin.ext
    show (t.val + T - 1) % T = t.val - 1
    have he : t.val + T - 1 = (t.val - 1) + T := by omega
    rw [he, Nat.add_mod_right]
    exact Nat.mod_eq_of_lt (by omega)

/-- Anatomy of a successful per-commodity emission step. -/
theorem balanceStep_ok {T : ℕ} (n : BNode T) (du : String → ℚ) (x : String)
    (y : String × BalanceConstraint T) (h : balanceStep n du x = Except.ok y) :
    y.1 = x ∧ ∃ inM outM cfm,
      resolvedData n du x = Except.ok (inM, outM, cfm) ∧
      emitBalanceCommodity n.storage inM outM cfm = Except.ok y.2 := by
  unfold balanceStep at h
  split at h
  · exact absurd h (by simp)
  · rename_i inM outM cfm heq
    split at h
    · exact absurd h (by simp)
    · rename_i c heq2
      injection h with h
      subst h
      exact ⟨rfl, inM, outM, cfm, heq, heq2⟩

/-- Claim C1 (amended): for every node and every distinct output commodity,
flow-balance constraint creation emits one constraint whose satisfaction is,
independently at every time step, the equation sum(output flows tagged with
the commodity) = convert factor * sum(input flows tagged with the
corresponding input commodity), with all operands stripped to magnitudes in
the commodity default units, and with the additional term
+ charge - discharge (not divided by the interval length) on the side of the
node balance when the node owns a storage. -/
theorem c1_flow_balance_per_commodity {T : ℕ} (n : BNode T) (du : String → ℚ)
    (lst : List (String × BalanceConstraint T))
    (hok : createBalanceConstraints n du = Except.ok lst) :
    lst.map (fun p => p.1) = n.outputCommodities.dedup ∧
    ∀ oc cstr inM outM cfm, (oc, cstr) ∈ lst →
      resolvedData n du oc = Except.ok (inM, outM, cfm) →
      (cstr.sat ↔
        ∀ t, seriesSum outM t + codeStorageTerm n.storage t = cfm * seriesSum inM t) := by
  unfold createBalanceConstraints at hok
  by_cases h1 : n.inputFlows.isEmpty
  · rw [if_pos h1] at hok
    exact absurd hok (by simp)
  rw [if_neg h1] at hok
  by_cases h2 : n.outputFlows.isEmpty
  · rw [if_pos h2] at hok
    exact absurd hok (by simp)
  rw [if_neg h2] at hok
  cases hcf : getConvertionFactors n with
  | error e => rw [hcf] at hok; exact absurd hok (by simp)
  | ok cfs =>
    rw [hcf] at hok
    constructor
    · exact mapME_ok_map_fst (balanceStep n du)
        (fun x y hxy => (balanceStep_ok n du x y hxy).1) n.outputCommodities.dedup lst hok
    · intro oc cstr inM outM cfm hmem hres
      obtain ⟨x, _, hfx⟩ := mapME_ok_mem (balanceStep n du) n.outputCommodities.dedup lst hok
        (oc, cstr) hmem
      obtain ⟨hx1, inM2, outM2, cfm2, hres2, hemit2⟩ := balanceStep_ok n du x (oc, cstr) hfx
      subst hx1
      rw [hres] at hres2
      injection hres2 with htrip
      injection htrip with hinM htrip
      injection htrip with houtM hcfm
      subst hinM
      subst houtM
      subst hcfm
      exact emitBalanceCommodity_sat_iff n.storage inM outM cfm cstr hemit2

/-- Witness for claim C1 at a concrete storage-free node: the emitted
constraint is equivalent to the per-time-step balance equation. -/
theorem c1_flow_balance_per_commodity_witness :
    witC1cstr.sat ↔
      ∀ t, seriesSum witC1trip.2.1 t + codeStorageTerm witC1node.storage t
        = witC1trip.2.2 * seriesSum witC1trip.1 t := by
  have hok : createBalanceConstraints witC1node cexC1du = Except.ok witC1lst := rfl
  have hmem : ("electricity", witC1cstr) ∈ witC1lst := by
    have e : witC1lst = [("electricity", witC1cstr)] := rfl
    rw [e]
    exact List.mem_singleton.mpr rfl
  have hres : resolvedData witC1node cexC1du "electricity"
      = Except.ok (witC1trip.1, witC1trip.2.1, witC1trip.2.2) := rfl
  exact (c1_flow_balance_per_commodity witC1node cexC1du witC1lst hok).2 "electricity"
    witC1cstr witC1trip.1 witC1trip.2.1 witC1trip.2.2 hmem hres

/-- Counterexample to claim C1 as stated: on a 2-hour time grid, the node
`cexC1node` (with storage charge 2, discharge 0, input sum 2, output sum 0,
conversion factor 1) has its emitted balance constraint satisfied, while the
claimed equation with the storage term divided by the interval length fails:
0 + 2/2 - 0/2 = 1 is not 1 * 2. -/
theorem c1_counterexample : ¬ c1AsStated := by
  intro h
  have hok : createBalanceConstraints cexC1node cexC1du = Except.ok cexC1lst := rfl
  have hmem : ("electricity", cexC1cstr) ∈ cexC1lst := by
    have e : cexC1lst = [("electricity", cexC1cstr)] := rfl
    rw [e]
    exact List.mem_singleton.mpr rfl
  have hres : resolvedData cexC1node cexC1du "electricity"
      = Except.ok (cexC1trip.1, cexC1trip.2.1, cexC1trip.2.2) := rfl
  have hdt : intervalLengthHours [0, 2] = Except.ok 2 := by
    unfold intervalLengthHours
    simp only [List.tail_cons, List.zipWith_cons_cons, List.zipWith_nil_right, List.all_nil,
      if_true]
    norm_num
  have htrip : cexC1trip =
      ([FlowExpr.mk true (fun _ => 2)], [FlowExpr.mk true (fun _ => 0)],
        (1 : ℚ) * 1 / (1 / 1)) := rfl
  have hemit : emitBalanceCommodity cexC1node.storage cexC1trip.1 cexC1trip.2.1 cexC1trip.2.2
      = Except.ok cexC1cstr := rfl
  have hsat : cexC1cstr.sat := by
    rw [(emitBalanceCommodity_sat_iff cexC1node.storage cexC1trip.1 cexC1trip.2.1
      cexC1trip.2.2 cexC1cstr hemit)]
    intro t
    rw [htrip]
    simp only [seriesSum, codeStorageTerm, cexC1node, cexC1storage, List.map_cons,
      List.map_nil, List.sum_cons, List.sum_nil]
    norm_num
  have hiff := h 1 cexC1node cexC1du cexC1lst "electricity" cexC1cstr cexC1trip.1
    cexC1trip.2.1 cexC1trip.2.2 [0, 2] 2 hok hmem hres hdt
  have hclaimed := hiff.mp hsat 0
  rw [htrip] at hclaimed
  simp only [claimStorageTerm, cexC1node, cexC1storage, seriesSum, List.map_cons,
    List.map_nil, List.sum_cons, List.sum_nil] at hclaimed
  norm_num at hclaimed

theorem sat_le_iff {T : ℕ} (f : Fin T → ℚ) :
    (SConstraint.mk f true).sat ↔ ∀ t, f t ≤ 0 := by
  unfold SConstraint.sat
  simp

theorem sat_eq_iff {T : ℕ} (f : Fin T → ℚ) :
    (SConstraint.mk f false).sat ↔ ∀ t, f t = 0 := by
  unfold SConstraint.sat
  simp

/-- Claim C2 (amended): the emitted storage speed and level constraints bound,
at every time step, charge and discharge by size * max_charging_speed (the
time-grid interval length does not enter) and the level by the size. -/
theorem c2_storage_bounds {T : ℕ} (s : StorageData T) :
    ((maxChargingConstraint s).sat ∧ (maxDischargingConstraint s).sat ∧
      (storageMaxLevelConstraint s).sat) ↔
    ∀ t, s.charge t ≤ s.size * s.maxChargingSpeed ∧
      s.discharge t ≤ s.size * s.maxChargingSpeed ∧ s.level t ≤ s.size := by
  unfold maxChargingConstraint maxDischargingConstraint storageMaxLevelConstraint
  simp only [sat_le_iff]
  constructor
  · rintro ⟨h1, h2, h3⟩ t
    exact ⟨by linarith [h1 t], by linarith [h2 t], by linarith [h3 t]⟩
  · intro h
    exact ⟨fun t => by linarith [(h t).1], fun t => by linarith [(h t).2.1],
      fun t => by linarith [(h t).2.2]⟩

/-- Counterexample to claim C2 as stated: on a 2-hour grid, a storage of size
1 with max charging speed 1/2 and charge 3/4 satisfies the claimed bound
charge <= size * speed * interval (3/4 <= 1) but violates the emitted
constraint charge - size * speed <= 0 (3/4 > 1/2), so the claimed equivalence
fails. -/
theorem c2_counterexample : ¬ c2AsStated := by
  intro h
  have hdt : intervalLengthHours [0, 2] = Except.ok 2 := by
    unfold intervalLengthHours
    simp only [List.tail_cons, List.zipWith_cons_cons, List.zipWith_nil_right, List.all_nil,
      if_true]
    norm_num
  have hiff := h 1 cexC2storage [0, 2] 2 hdt
  have hr : ∀ t : Fin 1,
      cexC2storage.charge t ≤ cexC2storage.size * cexC2storage.maxChargingSpeed * 2 ∧
      cexC2storage.discharge t ≤ cexC2storage.size * cexC2storage.maxChargingSpeed * 2 ∧
      cexC2storage.level t ≤ cexC2storage.size := by
    intro t
    simp only [cexC2storage]
    norm_num
  have hl := hiff.mpr hr
  have hx : (3 : ℚ) / 4 - 1 * (1 / 2) ≤ 0 := hl.1 0
  norm_num at hx

/-- Claim C5: the emitted storage level balance equates, at every time step,
level(t) with (1 - storage_loss) * level(t-1) + (1 - charging_loss) *
charge(t) - discharge(t), where the predecessor of the first time step wraps
circularly to the last one. -/
theorem c5_storage_level_balance {T : ℕ} (s : StorageData T) :
    (storageLevelBalanceConstraint s).sat ↔
    ∀ t, s.level t = (1 - s.storageLoss) * s.level (predCirc t)
      + (1 - s.chargingLoss) * s.charge t - s.discharge t := by
  unfold storageLevelBalanceConstraint
  rw [sat_eq_iff]
  constructor
  · intro h t
    have hb := h t
    rw [rollSeries_eq_predCirc] at hb
    linarith
  · intro h t
    rw [rollSeries_eq_predCirc]
    linarith [h t]

/-- Claim C3 (code evaluated at the failing input): the proportion validation
rejects the absolute-quantity ratios 1 : 3 used by the repository test suite
because their sum is not 1, while ratios summing to 1 pass; and the emitted
proportion constraints are one per entry (no reference entry is skipped),
each of the form p * sum(other flows) + (p - 1) * flow == 0, satisfied by
flows in the declared ratio. -/
theorem c3_proportions_code_behaviour :
    checkProportionsValidOrMissing ["co2", "hydrogen"]
        (some [("co2", 1), ("hydrogen", 3)]) ["co2", "hydrogen"]
      = Except.error "proportions needs to sum up to 1." ∧
    checkProportionsValidOrMissing ["co2", "hydrogen"]
        (some [("co2", 1 / 4), ("hydrogen", 3 / 4)]) ["co2", "hydrogen"]
      = Except.ok () ∧
    ((createProportionConstraints [("co2", 1 / 4), ("hydrogen", 3 / 4)] c3Flows).map
        (fun p => p.1)) = ["co2", "hydrogen"] ∧
    ∀ p ∈ createProportionConstraints [("co2", 1 / 4), ("hydrogen", 3 / 4)] c3Flows,
      p.2.sat := by
  refine ⟨?_, ?_, rfl, ?_⟩
  · have hk : ¬ (keysMatch [("co2", (1 : ℚ)), ("hydrogen", 3)] ["co2", "hydrogen"] = false) := by
      decide
    have hs : (List.map (fun p => p.2) [("co2", (1 : ℚ)), ("hydrogen", 3)]).sum ≠ 1 := by
      simp only [List.map_cons, List.map_nil, List.sum_cons, List.sum_nil]
      norm_num
    show (if keysMatch [("co2", (1 : ℚ)), ("hydrogen", 3)] ["co2", "hydrogen"] = false then
        Except.error "proportions needs to be a dict with keys matching names"
      else if (List.map (fun p => p.2) [("co2", (1 : ℚ)), ("hydrogen", 3)]).sum ≠ 1 then
        Except.error "proportions needs to sum up to 1."
      else Except.ok ()) = Except.error "proportions needs to sum up to 1."
    rw [if_neg hk, if_pos hs]
  · have hk : ¬ (keysMatch [("co2", (1 : ℚ) / 4), ("hydrogen", 3 / 4)] ["co2", "hydrogen"]
        = false) := by
      decide
    have hs : ¬ ((List.map (fun p => p.2) [("co2", (1 : ℚ) / 4), ("hydrogen", 3 / 4)]).sum
        ≠ 1) := by
      simp only [List.map_cons, List.map_nil, List.sum_cons, List.sum_nil]
      norm_num
    show (if keysMatch [("co2", (1 : ℚ) / 4), ("hydrogen", 3 / 4)] ["co2", "hydrogen"]
          = false then
        Except.error "proportions needs to be a dict with keys matching names"
      else if (List.map (fun p => p.2) [("co2", (1 : ℚ) / 4), ("hydrogen", 3 / 4)]).sum ≠ 1 then
        Except.error "proportions needs to sum up to 1."
      else Except.ok ()) = Except.ok ()
    rw [if_neg hk, if_neg hs]
  · intro p hp
    unfold createProportionConstraints c3Flows at hp
    simp only [List.map_cons, List.map_nil, List.mem_cons, List.not_mem_nil, or_false] at hp
    rcases hp with hp | hp <;> subst hp <;> intro t
    · show (1 : ℚ) / 4 * ((3 : ℚ) / 2 + 0) + ((1 : ℚ) / 4 - 1) * ((1 : ℚ) / 2) = 0
      norm_num
    · show (3 : ℚ) / 4 * ((1 : ℚ) / 2 + 0) + ((3 : ℚ) / 4 - 1) * ((3 : ℚ) / 2) = 0
      norm_num

/-- Claim C4: whenever a node supplies a `convert_factors` mapping together
with the default `convert_factor` of 1.0, the guard in
`_get_convertion_factors` fires (the second disjunct of
`convert_factor != 1.0 or convert_factor is not None` is true), so conversion
factor resolution raises and the node never reaches a successful flow-balance
emission. -/
theorem c4_convert_factors_always_rejected {T : ℕ} (n : BNode T)
    (m : List (String × String × Option PQuantity))
    (hm : n.convertFactors = some m) (hcf : n.convertFactor = some pqOne) :
    getConvertionFactors n
      = Except.error "convert_factors is only allowed if convert_factor is 1.0 or None" ∧
    ∀ du, ∃ e, createBalanceConstraints n du = Except.error e := by
  have h1 : getConvertionFactors n
      = Except.error "convert_factors is only allowed if convert_factor is 1.0 or None" := by
    unfold getConvertionFactors
    rw [hm]
    show (if n.convertFactor ≠ some pqOne ∨ n.convertFactor ≠ none then
        Except.error "convert_factors is only allowed if convert_factor is 1.0 or None"
      else Except.ok m)
      = Except.error "convert_factors is only allowed if convert_factor is 1.0 or None"
    rw [if_pos (Or.inr (by rw [hcf]; simp))]
  refine ⟨h1, fun du => ?_⟩
  unfold createBalanceConstraints
  by_cases e1 : n.inputFlows.isEmpty
  · rw [if_pos e1]
    exact ⟨_, rfl⟩
  rw [if_neg e1]
  by_cases e2 : n.outputFlows.isEmpty
  · rw [if_pos e2]
    exact ⟨_, rfl⟩
  rw [if_neg e2, h1]
  exact ⟨_, rfl⟩

/-- Witness for claim C4 at a concrete node with a `convert_factors` mapping
and the default `convert_factor` 1.0. -/
theorem c4_convert_factors_always_rejected_witness :
    getConvertionFactors cexC4node
      = Except.error "convert_factors is only allowed if convert_factor is 1.0 or None" ∧
    ∀ du, ∃ e, createBalanceConstraints cexC4node du = Except.error e :=
  c4_convert_factors_always_rejected cexC4node
    [("electricity", "gas", some (PQuantity.mk 2 1))] rfl rfl

/-- Claim C6 (code evaluated at the failing input): for output flows of 3
(electricity, the size-defining commodity) and 6 (heat), the emitted
size-limit constraint sums both commodities, so it is violated at size 8
although the size-commodity sum is only 3, and it only holds from size 9 on. -/
theorem c6_size_limit_sums_all_commodities :
    ¬ (nodeSizeLimitConstraint (c6Flows.map (fun p => p.2)) 8 none).sat ∧
    (∀ t, taggedOutputSum c6Flows "electricity" t ≤ 8) ∧
    (nodeSizeLimitConstraint (c6Flows.map (fun p => p.2)) 9 none).sat := by
  refine ⟨?_, ?_, ?_⟩
  · intro hs
    have hx : ((3 : ℚ) + (6 + 0) - 8) + 0 ≤ 0 := hs 0
    norm_num at hx
  · intro t
    show (3 : ℚ) + 0 ≤ 8
    norm_num
  · intro t
    show ((3 : ℚ) + (6 + 0) - 9) + 0 ≤ 0
    norm_num

/-- Counterexample to claim C7 as stated: `Storage.__init__` accepts a
negative storage loss together with a non-positive max charging speed
(r = -1, l = -1, k = 0), which the claimed ranges (0,1] and [0,1) exclude. -/
theorem c7_counterexample : ¬ c7AsStated := by
  intro h
  have hacc : storageInitAccepted (-1) (-1) 0 = true := by
    unfold storageInitAccepted
    simp only [Bool.and_eq_true, decide_eq_true_eq]
    norm_num
  have hr := (h (-1) (-1) 0).mp hacc
  exact absurd hr.1 (by norm_num)

/-- Claim C7 (amended): `Storage.__init__` accepts its parameters exactly when
storage_loss < 1, charging_loss < 1 and max_charging_speed <= 1; the lower
ends of the documented ranges are not checked. -/
theorem c7_storage_init_validation (r l k : ℚ) :
    storageInitAccepted r l k = true ↔ (l < 1 ∧ k < 1 ∧ r ≤ 1) := by
  unfold storageInitAccepted
  simp [Bool.and_eq_true, decide_eq_true_eq, and_assoc]

/-- Claim C8: a scalable-profile input node is constructed exactly when every
capacity factor lies in [0, 1], and variable creation (with a size variable,
created since costs are set) replaces the input flow by size * profile. -/
theorem c8_scalable_input_profile (profile : List ℚ) :
    ((mkNodeScalableInputProfile profile = Except.ok profile) ↔
      ∀ x ∈ profile, 0 ≤ x ∧ x ≤ 1) ∧
    ∀ costs : ℚ, costs ≠ 0 →
      scalableInputCreateVariables profile costs
        = Except.ok (ScalableInputFlow.sizeTimesProfile profile) := by
  constructor
  · unfold mkNodeScalableInputProfile capacityFactorsOk
    by_cases hv : profile.all (fun x => decide (0 ≤ x) && decide (x ≤ 1)) = true
    · rw [if_pos hv]
      simp only [List.all_eq_true, Bool.and_eq_true, decide_eq_true_eq] at hv
      simpa using hv
    · rw [if_neg hv]
      simp only [List.all_eq_true, Bool.and_eq_true, decide_eq_true_eq] at hv
      exact iff_of_false (by simp) hv
  · intro costs hc
    unfold scalableInputCreateVariables
    rw [if_pos hc]

/-- Witness for claim C8 at the profile [0, 1/2, 1] and costs 1. -/
theorem c8_scalable_input_profile_witness :
    mkNodeScalableInputProfile c8Profile = Except.ok c8Profile ∧
    scalableInputCreateVariables c8Profile 1
      = Except.ok (ScalableInputFlow.sizeTimesProfile c8Profile) := by
  constructor
  · refine (c8_scalable_input_profile c8Profile).1.mpr ?_
    intro x hx
    unfold c8Profile at hx
    fin_cases hx <;> norm_num
  · exact (c8_scalable_input_profile c8Profile).2 1 (by norm_num)

/-- Claim C9: `Network.optimize` returns normally exactly when the solver
status is ok; otherwise it raises one typed `SolverError` whose message
contains both the solver status and the termination condition. -/
theorem c9_optimize_raises_on_bad_status (status : SolverStatus) (tc : String) :
    (status = SolverStatus.ok → networkOptimize status tc = Except.ok ()) ∧
    (status ≠ SolverStatus.ok →
      networkOptimize status tc
        = Except.error (SolverError.mk (solverErrorMessage status tc)) ∧
      (solverStatusName status).data <:+: (solverErrorMessage status tc).data ∧
      tc.data <:+: (solverErrorMessage status tc).data) := by
  constructor
  · intro h
    unfold networkOptimize
    rw [if_pos h]
  · intro h
    refine ⟨?_, ?_, ?_⟩
    · unfold networkOptimize
      rw [if_neg h]
    · refine ⟨("unable to solve optimization, solver status=").data,
        (", termination condition=" ++ tc).data, ?_⟩
      unfold solverErrorMessage
      simp only [String.data_append, List.append_assoc]
    · refine ⟨("unable to solve optimization, solver status=" ++ solverStatusName status
          ++ ", termination condition=").data, [], ?_⟩
      unfold solverErrorMessage
      simp only [String.data_append, List.append_assoc, List.append_nil]

/-- Witness for claim C9 at the infeasible-solve status of the test suite. -/
theorem c9_optimize_raises_on_bad_status_witness :
    networkOptimize SolverStatus.warning "infeasible"
      = Except.error
          (SolverError.mk (solverErrorMessage SolverStatus.warning "infeasible")) ∧
    (solverStatusName SolverStatus.warning).data
      <:+: (solverErrorMessage SolverStatus.warning "infeasible").data ∧
    ("infeasible").data <:+: (solverErrorMessage SolverStatus.warning "infeasible").data :=
  (c9_optimize_raises_on_bad_status SolverStatus.warning "infeasible").2 (by decide)

theorem setOutputConnectionsKeys_isSome (nodes : List PNode) (n : PNode) (s : FlowKeys) :
    ∃ l, (setOutputConnectionsKeys nodes n s).outFlows = some l := by
  unfold setOutputConnectionsKeys
  cases h : s.outFlows with
  | none => exact ⟨outputsOf nodes n, rfl⟩
  | some l => exact ⟨l, h⟩

theorem addLeafFlowKeys_nonempty (s : FlowKeys) (l : List String)
    (hl : s.outFlows = some l) :
    (addLeafFlowKeys s).inFlows ≠ [] ∧
    ∃ l2, (addLeafFlowKeys s).outFlows = some l2 ∧ l2 ≠ [] := by
  unfold addLeafFlowKeys
  rw [hl]
  constructor
  · show (if s.inFlows.isEmpty then [""] else s.inFlows) ≠ []
    by_cases h : s.inFlows.isEmpty
    · rw [if_pos h]
      simp
    · rw [if_neg h]
      simpa [List.isEmpty_iff] using h
  · refine ⟨if l.isEmpty then [""] else l, rfl, ?_⟩
    by_cases h : l.isEmpty
    · rw [if_pos h]
      simp
    · rw [if_neg h]
      simpa [List.isEmpty_iff] using h

/-- Claim C10: after the network build pipeline (variable creation, output
edge resolution, leaf flow synthesis) every node has at least one input flow
and at least one output flow, so the non-empty-flows assertions at the start
of flow-balance constraint creation cannot fire. -/
theorem c10_leaf_flows_nonempty (nodes : List PNode) (n : PNode) (hmem : n ∈ nodes) :
    (pipelineFlowKeys nodes n).inFlows ≠ [] ∧
    ∃ l, (pipelineFlowKeys nodes n).outFlows = some l ∧ l ≠ [] := by
  unfold pipelineFlowKeys
  obtain ⟨l, hl⟩ := setOutputConnectionsKeys_isSome nodes n (createVariablesKeys n (initFlowKeys n))
  exact addLeafFlowKeys_nonempty _ l hl

/-- Witness for claim C10 on a one-node network whose node has neither inputs
nor outputs. -/
theorem c10_leaf_flows_nonempty_witness :
    (pipelineFlowKeys c10Nodes (PNode.mk "gas" PNodeKind.generic [])).inFlows ≠ [] ∧
    ∃ l, (pipelineFlowKeys c10Nodes (PNode.mk "gas" PNodeKind.generic [])).outFlows = some l ∧
      l ≠ [] :=
  c10_leaf_flows_nonempty c10Nodes (PNode.mk "gas" PNodeKind.generic [])
    (by simp [c10Nodes])
